import Mathlib

/-!
Verification of the SMAWebConnect polling plugin (smawebconnect/py3_main.py).

The development shallowly embeds the data-handling core of the plugin:
the session-id persister, the field catalog, value extraction and
scaling, the per-cycle reduction into a metric sample, the online flag,
the login error classification, the fetch/parse cycle, and the metrics
queue (a deque written with appendleft and drained with pop).

Numeric raw readings and scale factors are modelled as rationals.
JSON substructures are modelled by association lists; a possibly-null
JSON value is an Option.
-/

set_option autoImplicit false

namespace SMA

/-- Association-list lookup, modelling Python dict access (keys unique). -/
def lookup {α : Type} (k : String) : List (String × α) → Option α
  | [] => none
  | (k2, v) :: rest => if k = k2 then some v else lookup k rest

/-- One value container of the device payload, the argument of
clean_value: none models a dict without a val key; some none models
val = null; some (some v) models a numeric val. -/
abbrev ValContainer : Type := Option (Option ℚ)

/-- The channel data of one field: the dict the device nests each
list of readings in, normally a single sub-key 1 holding the list of
value containers. -/
abbrev ChannelData : Type := List (String × List ValContainer)

/-- The single-device payload of a getValues response: deviceKey to
channel data. -/
abbrev DevicePayload : Type := List (String × ChannelData)

/-- Catalog entry of FIELD_MAPPING: metric name, description, unit,
metric type and scale factor. -/
structure FieldInfo where
  name : String
  description : String
  unit : String
  mtype : String
  factor : ℚ
deriving DecidableEq, Repr

/-- The static field catalog FIELD_MAPPING of SMAWebConnect. -/
def FIELD_MAPPING : List (String × FieldInfo) :=
  [("6100_40263F00", ⟨"grid_power", "Grid power", "W", "gauge", 1⟩),
   ("6100_00465700", ⟨"frequency", "Frequency", "Hz", "gauge", 100⟩),
   ("6100_00464800", ⟨"voltage_l1", "Voltage L1", "V", "gauge", 100⟩),
   ("6100_00464900", ⟨"voltage_l2", "Voltage L2", "V", "gauge", 100⟩),
   ("6100_00464A00", ⟨"voltage_l3", "Voltage L3", "V", "gauge", 100⟩),
   ("6100_40465300", ⟨"current_l1", "Current L1", "A", "gauge", 1000⟩),
   ("6100_40465400", ⟨"current_l2", "Current L2", "A", "gauge", 1000⟩),
   ("6100_40465500", ⟨"current_l3", "Current L3", "A", "gauge", 1000⟩),
   ("6100_0046C200", ⟨"pv_power", "PV power", "W", "gauge", 1⟩),
   ("6380_40451F00", ⟨"pv_voltage", "PV voltage (average of all PV channels)", "V", "gauge", 100⟩),
   ("6380_40452100", ⟨"pv_current", "PV current (average of all PV channels)", "A", "gauge", 1000⟩),
   ("6400_0046C300", ⟨"pv_gen_meter", "PV generation meter", "Wh", "counter", 1⟩),
   ("6400_00260100", ⟨"total_yield", "Total yield", "Wh", "counter", 1⟩),
   ("6400_00262200", ⟨"daily_yield", "Daily yield", "Wh", "counter", 1⟩),
   ("6100_40463600", ⟨"grid_power_supplied", "Grid power supplied", "W", "gauge", 1⟩),
   ("6100_40463700", ⟨"grid_power_absorbed", "Grid power absorbed", "W", "gauge", 1⟩),
   ("6400_00462400", ⟨"grid_total_yield", "Grid total yield", "Wh", "counter", 1⟩),
   ("6400_00462500", ⟨"grid_total_absorbed", "Grid total absorbed", "Wh", "counter", 1⟩),
   ("6100_00543100", ⟨"current_consumption", "Current consumption", "W", "gauge", 1⟩),
   ("6400_00543A00", ⟨"total_consumption", "Total consumption", "Wh", "counter", 1⟩)]

/-- Embedding of SMAWebConnect._clean_value: a container without a val
key gives None (after a structural warning), val = null gives None,
and a numeric val gives float(value) / factor. -/
def clean_value (value_container : ValContainer) (factor : ℚ) : Option ℚ :=
  match value_container with
  | none => none
  | some none => none
  | some (some value) => some (value / factor)

/-- Embedding of SMAWebConnect._extract_values: the channel data must
be exactly the sub-key 1, else the structural anomaly yields the empty
list; an empty reading list yields the empty list; a single reading is
cleaned and returned (possibly None); with two or more readings the
loop appends only the cleaned values that are not None. -/
def extract_values (values : ChannelData) (factor : ℚ) : List (Option ℚ) :=
  if values.length ≠ 1 then []
  else
    match lookup "1" values with
    | none => []
    | some vs =>
      match vs with
      | [] => []
      | [v] => [clean_value v factor]
      | _ => (vs.filterMap (fun raw_value => clean_value raw_value factor)).map some

/-- Embedding of the per-field reduction inside SMAWebConnect._read_data:
no extracted values, or a single None, inserts nothing; a single
non-None value is inserted as is; with two or more values the None
entries are filtered out and the remainder inserted directly (one
value) or averaged (more than one). -/
def reduce_values (values : List (Option ℚ)) : Option ℚ :=
  match values with
  | [] => none
  | [v] => v
  | _ =>
    match values.filterMap id with
    | [] => none
    | [w] => some w
    | ws => some (ws.sum / (ws.length : ℚ))

/-- A value stored in the values mapping of a metric sample: a scaled
numeric reading, the synthetic online boolean, or null (representable
in the dynamic dict, never inserted by the code). -/
inductive SVal where
  | num : ℚ → SVal
  | bool : Bool → SVal
  | null : SVal
deriving DecidableEq, Repr

/-- Embedding of the field loop of SMAWebConnect._read_data over a
catalog: catalog fields missing from the payload are skipped (logged),
present fields are extracted and reduced, and a reduced value is
inserted under the metric name. -/
def build_fields : List (String × FieldInfo) → DevicePayload → List (String × SVal)
  | [], _ => []
  | (key, info) :: rest, data =>
    match lookup key data with
    | none => build_fields rest data
    | some fieldData =>
      match reduce_values (extract_values fieldData info.factor) with
      | none => build_fields rest data
      | some v => (info.name, SVal.num v) :: build_fields rest data

/-- The metrics_values dict built by one cycle before the online flag. -/
def build_metrics_values (data : DevicePayload) : List (String × SVal) :=
  build_fields FIELD_MAPPING data

/-- Embedding of the offline test of SMAWebConnect._read_data:
frequency not in metrics_values or metrics_values of frequency is None. -/
def is_offline (metrics_values : List (String × SVal)) : Bool :=
  match lookup "frequency" metrics_values with
  | none => true
  | some v => decide (v = SVal.null)

/-- Embedding of the online insertion of SMAWebConnect._read_data:
metrics_values with the key online set to not offline. -/
def add_online (metrics_values : List (String × SVal)) : List (String × SVal) :=
  metrics_values ++ [("online", SVal.bool (!is_offline metrics_values))]

/-- The full values mapping of the sample produced by one successful
cycle on a device payload. -/
def sample_values (data : DevicePayload) : List (String × SVal) :=
  add_online (build_metrics_values data)

/-- One metric sample as enqueued by SMAWebConnect._enqueue_metrics:
the fixed type sma, a timestamp, the device tag, and the values dict. -/
structure MetricSample where
  mtype : String
  timestamp : ℚ
  tags : List (String × String)
  values : List (String × SVal)
deriving DecidableEq, Repr

/-- Embedding of SMAWebConnect._enqueue_metrics: deque.appendleft, a
constant-time push at the left end of the queue (list head). -/
def enqueue_metrics (queue : List MetricSample) (sample : MetricSample) : List MetricSample :=
  sample :: queue

/-- Embedding of SMAWebConnect.collect_metrics: deque.pop removes from
the right end (list tail) and the generator yields until IndexError;
the result is the yielded sequence together with the drained queue. -/
def collect_metrics : List MetricSample → List MetricSample × List MetricSample
  | [] => ([], [])
  | s :: rest =>
    ((collect_metrics rest).1 ++ [s], (collect_metrics rest).2)

/-- The cycle-level error kinds raised inside SMAWebConnect._read_data
and SMAWebConnect._login: maximum sessions (login err 503), other
login rejection with the device-reported code (none models the string
unknown), the unexpected-response anomaly of the parsing step, and a
transport failure of the request itself. -/
inductive CycleError where
  | maxSessions
  | couldNotLogin (code : Option Int)
  | unexpectedResponse
  | transport
deriving DecidableEq, Repr

/-- A login response: result is some (some sid) when a result dict with
a sid key is present, some none when the result dict lacks sid, none
when there is no result key; err is the optional err code. -/
structure LoginResponse where
  result : Option (Option String)
  err : Option Int
deriving DecidableEq, Repr

/-- Embedding of SMAWebConnect._login: a result dict with a sid gives
the new session id; otherwise err 503 raises the maximum-sessions
error and any other (or missing) code raises the generic login
failure carrying the device-reported code. -/
def login (response : LoginResponse) : Except CycleError String :=
  match response.result with
  | some (some sid) => Except.ok sid
  | _ =>
    match response.err with
    | some 503 => Except.error CycleError.maxSessions
    | some code => Except.error (CycleError.couldNotLogin (some code))
    | none => Except.error (CycleError.couldNotLogin none)

/-- A getValues response: err is the optional err code and result, when
present, maps each device serial to its possibly-null payload. -/
structure FetchResponse where
  err : Option Int
  result : Option (List (String × Option DevicePayload))
deriving Repr

/-- Embedding of the while-True fetch loop of SMAWebConnect._read_data
over the scripted sequence of successive fetch responses: a response
with err 401 triggers a login and, on login success, a retry with the
next scripted response; any other response breaks the loop. The result
carries the number of fetches performed; none means the scripted
responses were exhausted with the loop still running. -/
def fetch_loop (loginResponse : LoginResponse) :
    List FetchResponse → Option (Except CycleError FetchResponse × Nat)
  | [] => none
  | r :: rest =>
    if r.err = some 401 then
      match login loginResponse with
      | Except.ok _ =>
        match fetch_loop loginResponse rest with
        | none => none
        | some (out, n) => some (out, n + 1)
      | Except.error e => some (Except.error e, 1)
    else some (Except.ok r, 1)

/-- Embedding of the parsing step of SMAWebConnect._read_data: the
response must hold a result with exactly one serial key whose payload
is not null, else the RuntimeError for an unexpected response. -/
def parse_device_data (response : FetchResponse) :
    Except CycleError (String × DevicePayload) :=
  match response.result with
  | none => Except.error CycleError.unexpectedResponse
  | some entries =>
    if entries.length ≠ 1 then Except.error CycleError.unexpectedResponse
    else
      match entries with
      | [(serial, some data)] => Except.ok (serial, data)
      | _ => Except.error CycleError.unexpectedResponse

/-- Embedding of the tail of SMAWebConnect._read_data given the fetch
response the loop broke with: parse the single-device payload, build
the values mapping with the online flag, and enqueue the sample; a
parse failure raises before anything is enqueued. -/
def read_data_response (response : FetchResponse) (queue : List MetricSample)
    (now : ℚ) : Except CycleError (List MetricSample) :=
  match parse_device_data response with
  | Except.error e => Except.error e
  | Except.ok (serial, data) =>
    Except.ok (enqueue_metrics queue
      { mtype := "sma", timestamp := now,
        tags := [("device", serial)], values := sample_values data })

/-- Embedding of the while-True loop of SMAWebConnect.run over the
scripted outcomes of the successive cycles: a successful cycle has
enqueued its sample, a failed cycle is caught and logged; either way
the loop sleeps and proceeds to the next cycle. The result is the
final queue and the number of sleeps performed. -/
def run_loop : List (Except CycleError MetricSample) → List MetricSample →
    List MetricSample × Nat
  | [], queue => (queue, 0)
  | outcome :: rest, queue =>
    match outcome with
    | Except.ok sample =>
      ((run_loop rest (enqueue_metrics queue sample)).1,
       (run_loop rest (enqueue_metrics queue sample)).2 + 1)
    | Except.error _ =>
      ((run_loop rest queue).1, (run_loop rest queue).2 + 1)

/-- The on-disk state seen by SIDPersister: none models an unreadable
or unparsable file, some obj a JSON object with string values. -/
abbrev FileState : Type := Option (List (String × String))

/-- Embedding of SIDPersister.save: the prior file content is
replaced by the object holding the single sid field. -/
def sid_save (sid : String) (_fs : FileState) : FileState :=
  some [("sid", sid)]

/-- Embedding of SIDPersister.get: any failure to open, parse, or find
the sid key is caught and gives None. -/
def sid_get (fs : FileState) : Option String :=
  match fs with
  | none => none
  | some obj => lookup "sid" obj

/-! Helper lemmas about lookup and the built values mapping. -/

theorem lookup_append_of_none {α : Type} {k : String} {l1 l2 : List (String × α)}
    (h : lookup k l1 = none) : lookup k (l1 ++ l2) = lookup k l2 := by
  induction l1 with
  | nil => rfl
  | cons p rest ih =>
    cases p with
    | mk k2 v =>
      by_cases hk : k = k2
      · simp [lookup, hk] at h
      · simp only [List.cons_append, lookup, if_neg hk] at h ⊢
        exact ih h

theorem lookup_eq_none_of_forall {α : Type} {k : String} {l : List (String × α)}
    (h : ∀ p ∈ l, p.1 ≠ k) : lookup k l = none := by
  induction l with
  | nil => rfl
  | cons p rest ih =>
    cases p with
    | mk k2 v =>
      have hk : k ≠ k2 := fun he => (h (k2, v) (List.mem_cons_self _ _)) (by simp [he])
      simp only [lookup, if_neg hk]
      exact ih (fun q hq => h q (List.mem_cons_of_mem _ hq))

/-- Every entry of the built values mapping carries the metric name of
a catalog entry and a numeric value. -/
theorem build_fields_mem {fm : List (String × FieldInfo)} {data : DevicePayload}
    {n : String} {v : SVal} (h : (n, v) ∈ build_fields fm data) :
    ∃ p ∈ fm, p.2.name = n ∧ ∃ q : ℚ, v = SVal.num q := by
  induction fm with
  | nil => simp [build_fields] at h
  | cons p rest ih =>
    cases p with
    | mk key info =>
      simp only [build_fields] at h
      split at h
      · obtain ⟨q, hq, h1, h2⟩ := ih h
        exact ⟨q, List.mem_cons_of_mem _ hq, h1, h2⟩
      · split at h
        · obtain ⟨q, hq, h1, h2⟩ := ih h
          exact ⟨q, List.mem_cons_of_mem _ hq, h1, h2⟩
        · rcases List.mem_cons.mp h with he | hm
          · have h1 : n = info.name := (Prod.mk.injEq _ _ _ _ ▸ he).1
            have h2 : v = SVal.num _ := (Prod.mk.injEq _ _ _ _ ▸ he).2
            exact ⟨(key, info), List.mem_cons_self _ _, h1.symm, _, h2⟩
          · obtain ⟨q, hq, h1, h2⟩ := ih hm
            exact ⟨q, List.mem_cons_of_mem _ hq, h1, h2⟩

/-- A name outside the catalog names of fm has no entry in the built mapping. -/
theorem lookup_build_fields_none {fm : List (String × FieldInfo)} {data : DevicePayload}
    {n : String} (h : ∀ p ∈ fm, p.2.name ≠ n) :
    lookup n (build_fields fm data) = none := by
  apply lookup_eq_none_of_forall
  rintro ⟨pn, pv⟩ hp he
  cases he
  obtain ⟨q, hq, h1, _⟩ := build_fields_mem hp
  exact h q hq h1

/-- The entry of the built values mapping under the metric name of a
catalog entry is exactly the reduced extraction of that field, when the
catalog names are distinct. -/
theorem lookup_build_fields {fm : List (String × FieldInfo)} {data : DevicePayload}
    {key : String} {info : FieldInfo}
    (hnd : (fm.map (fun p => p.2.name)).Nodup)
    (hmem : (key, info) ∈ fm) :
    lookup info.name (build_fields fm data) =
      (match lookup key data with
       | none => none
       | some fd => (reduce_values (extract_values fd info.factor)).map SVal.num) := by
  induction fm with
  | nil => simp at hmem
  | cons p rest ih =>
    cases p with
    | mk k0 i0 =>
      rw [List.map_cons, List.nodup_cons] at hnd
      obtain ⟨hni, hnd2⟩ := hnd
      rcases List.mem_cons.mp hmem with he | hm
      · obtain ⟨hk, hi⟩ := Prod.mk.injEq .. ▸ he
        subst hk
        subst hi
        cases hl : lookup key data with
        | none =>
          simp only [build_fields, hl]
          apply lookup_build_fields_none
          intro q hq he2
          exact hni (he2 ▸ List.mem_map_of_mem (fun r => r.2.name) hq)
        | some fd =>
          cases hr : reduce_values (extract_values fd info.factor) with
          | none =>
            simp only [build_fields, hl, hr, Option.map_none']
            apply lookup_build_fields_none
            intro q hq he2
            exact hni (he2 ▸ List.mem_map_of_mem (fun r => r.2.name) hq)
          | some w =>
            simp only [build_fields, hl, hr, Option.map_some']
            simp [lookup]
      · have hne : i0.name ≠ info.name := by
          intro he2
          exact hni (he2 ▸ List.mem_map_of_mem (fun r => r.2.name) hm)
        have hne2 : info.name ≠ i0.name := fun he2 => hne he2.symm
        simp only [build_fields]
        cases hl : lookup k0 data with
        | none => exact ih hnd2 hm
        | some fd =>
          dsimp only
          cases hr : reduce_values (extract_values fd i0.factor) with
          | none => exact ih hnd2 hm
          | some w =>
            simp only [lookup, if_neg hne2]
            exact ih hnd2 hm

/-- The per-field reduction equals the arithmetic mean of the non-None
extracted values, none when there are none. -/
theorem reduce_values_eq_mean (values : List (Option ℚ)) :
    reduce_values values =
      if values.reduceOption = [] then none
      else some (values.reduceOption.sum / (values.reduceOption.length : ℚ)) := by
  match values with
  | [] => rfl
  | [v] =>
    cases v with
    | none => rfl
    | some x => simp [reduce_values, List.reduceOption]
  | v1 :: v2 :: rest =>
    simp only [reduce_values, List.reduceOption]
    cases hf : (v1 :: v2 :: rest).filterMap id with
    | nil => simp [hf]
    | cons w ws =>
      cases ws with
      | nil => simp [hf]
      | cons w2 ws2 => simp [hf]

theorem field_names_nodup : (FIELD_MAPPING.map (fun p => p.2.name)).Nodup := by decide

theorem online_not_field_name : ∀ p ∈ FIELD_MAPPING, p.2.name ≠ "online" := by decide

theorem lookup_online_build {data : DevicePayload} :
    lookup "online" (build_metrics_values data) = none :=
  lookup_build_fields_none online_not_field_name

/-! Claim theorems. -/

/-- Claim C1, counterexample: on the two-instance channel list with a
null first reading, extract_values returns the single scaled value of
the non-null instance, not one scaled-or-absent entry per instance
with an absent entry in first position. -/
theorem extract_multi_null_dropped_cex :
    extract_values [("1", [some none, some (some 100)])] 1 = [some (100 / 1)] ∧
    extract_values [("1", [some none, some (some 100)])] 1 ≠ [none, some (100 / 1)] := by
  refine ⟨rfl, ?_⟩
  intro h
  rw [show extract_values [("1", [some none, some (some 100)])] 1 = [some (100 / 1)] from rfl] at h
  simp at h

/-- Claim C1, amended: for every multi-reading field (two or more
channel instances under the sub-key 1), extract_values returns the
scaled values of exactly the instances whose reading cleans to a
non-None value, in device-reported order; null readings are dropped
from the output rather than kept as absent entries, and never become
zero. -/
theorem extract_multi_amended (vals : List ValContainer) (f : ℚ)
    (h : 2 ≤ vals.length) :
    extract_values [("1", vals)] f =
      ((vals.map (fun c => clean_value c f)).reduceOption).map some := by
  match vals with
  | v1 :: v2 :: rest =>
    show ((v1 :: v2 :: rest).filterMap (fun raw_value => clean_value raw_value f)).map some = _
    rw [List.reduceOption, List.filterMap_map]
    rfl

/-- Witness of extract_multi_amended at a concrete two-instance list. -/
theorem extract_multi_amended_witness :
    2 ≤ ([some none, some (some 100)] : List ValContainer).length ∧
    extract_values [("1", [some none, some (some 100)])] (1:ℚ) =
      (([some none, some (some 100)] : List ValContainer).map
        (fun c => clean_value c (1:ℚ))).reduceOption.map some :=
  ⟨by decide, extract_multi_amended [some none, some (some 100)] 1 (by decide)⟩

/-- Claim C2: for a catalog field present in the payload, when the
extraction has at least one non-None value the sample maps the metric
name to their arithmetic mean (the value itself for a single one), and
when it has none the metric name is absent from the values mapping. -/
theorem read_data_reduction_mean (data : DevicePayload) (key : String) (info : FieldInfo)
    (fd : ChannelData) (hmem : (key, info) ∈ FIELD_MAPPING)
    (hfd : lookup key data = some fd) :
    ((extract_values fd info.factor).reduceOption = [] →
      lookup info.name (build_metrics_values data) = none) ∧
    ((extract_values fd info.factor).reduceOption ≠ [] →
      lookup info.name (build_metrics_values data) =
        some (SVal.num ((extract_values fd info.factor).reduceOption.sum /
          ((extract_values fd info.factor).reduceOption.length : ℚ)))) := by
  have h := @lookup_build_fields FIELD_MAPPING data key info field_names_nodup hmem
  simp only [hfd] at h
  rw [reduce_values_eq_mean] at h
  constructor
  · intro he
    rw [if_pos he] at h
    simpa using h
  · intro hne
    rw [if_neg hne] at h
    simpa using h

/-- Witness of read_data_reduction_mean on the grid_power field of the
catalog, readings 100, null, 300 with factor 1. -/
theorem read_data_reduction_mean_witness :
    (("6100_40263F00", (⟨"grid_power", "Grid power", "W", "gauge", 1⟩ : FieldInfo)) ∈ FIELD_MAPPING) ∧
    lookup "6100_40263F00"
        [("6100_40263F00", [("1", [some (some 100), some none, some (some (300:ℚ))])])] =
      some [("1", [some (some 100), some none, some (some 300)])] ∧
    lookup "grid_power" (build_metrics_values
        [("6100_40263F00", [("1", [some (some 100), some none, some (some 300)])])]) =
      some (SVal.num
        ((extract_values [("1", [some (some 100), some none, some (some 300)])] 1).reduceOption.sum /
         ((extract_values [("1", [some (some 100), some none, some (some 300)])] 1).reduceOption.length : ℚ))) := by
  refine ⟨by decide, rfl, ?_⟩
  have h := read_data_reduction_mean
      [("6100_40263F00", [("1", [some (some 100), some none, some (some 300)])])]
      "6100_40263F00" ⟨"grid_power", "Grid power", "W", "gauge", 1⟩
      [("1", [some (some 100), some none, some (some 300)])] (by decide) rfl
  exact h.2 (by decide)

/-- Claim C3: every cycle outcome, success or any cycle-level error, is
followed by the sleep and by the next cycle: the loop performs one
sleep per scripted cycle whatever the outcomes, and an erroring cycle
leaves the queue unchanged without terminating the loop. -/
theorem run_loop_swallows_cycle_errors (outcomes : List (Except CycleError MetricSample))
    (queue : List MetricSample) :
    (run_loop outcomes queue).2 = outcomes.length ∧
    (∀ e rest, (run_loop (Except.error e :: rest) queue).1 = (run_loop rest queue).1) := by
  constructor
  · induction outcomes generalizing queue with
    | nil => rfl
    | cons o rest ih =>
      cases o with
      | ok s => simp [run_loop, ih]
      | error e => simp [run_loop, ih]
  · intro e rest
    rfl

/-- Claim C4: every produced values mapping holds the online key, and
its boolean is false exactly when the frequency entry is absent from
the reduced values or is the null value, independently of the other
fields. -/
theorem sample_online_flag (data : DevicePayload) :
    ∃ b : Bool, lookup "online" (sample_values data) = some (SVal.bool b) ∧
      (b = false ↔ (lookup "frequency" (build_metrics_values data) = none ∨
                    lookup "frequency" (build_metrics_values data) = some SVal.null)) := by
  refine ⟨!is_offline (build_metrics_values data), ?_, ?_⟩
  · unfold sample_values add_online
    rw [lookup_append_of_none lookup_online_build]
    simp [lookup]
  · cases hf : lookup "frequency" (build_metrics_values data) with
    | none => simp [is_offline, hf]
    | some v =>
      simp only [is_offline, hf, Bool.not_eq_false']
      constructor
      · intro hd
        right
        simp at hd
        simp [hd]
      · intro hd
        rcases hd with hd | hd
        · exact absurd hd (by simp)
        · simp at hd
          simp [hd]

/-- Claim C5: pushes of P1, P2, P3 in that order followed by a full
drain yield exactly the sequence P1, P2, P3 and the empty queue, and
a drain of the empty queue yields nothing. -/
theorem metrics_queue_fifo_drain (P1 P2 P3 : MetricSample) :
    collect_metrics (enqueue_metrics (enqueue_metrics (enqueue_metrics [] P1) P2) P3)
      = ([P1, P2, P3], []) ∧ collect_metrics [] = ([], []) :=
  ⟨rfl, rfl⟩

/-- Claim C6: for every positive scale factor and numeric raw reading,
single-reading extraction returns the reading divided by the factor,
and a null raw reading gives the absent value, never zero. -/
theorem extract_single_scaling (v f : ℚ) (_hf : 0 < f) :
    extract_values [("1", [some (some v)])] f = [some (v / f)] ∧
    extract_values [("1", [some none])] f = [none] ∧
    extract_values [("1", [some none])] f ≠ [some 0] := by
  refine ⟨rfl, rfl, ?_⟩
  intro h
  rw [show extract_values [("1", [some none])] f = [none] from rfl] at h
  simp at h

/-- Witness of extract_single_scaling at reading 10 and factor 2. -/
theorem extract_single_scaling_witness :
    (0:ℚ) < 2 ∧ extract_values [("1", [some (some 10)])] 2 = [some (10 / 2)] :=
  ⟨by norm_num, (extract_single_scaling 10 2 (by norm_num)).1⟩

/-- Claim C7: a login response carrying err 503 raises the distinct
maximum-sessions error kind, distinguishable from every generic login
failure, and a fetch that reported err 401 followed by that login
aborts the cycle after exactly one fetch, with no further retry. -/
theorem login_max_sessions_aborts (r : FetchResponse) (rest : List FetchResponse)
    (h : r.err = some 401) :
    login { result := none, err := some 503 } = Except.error CycleError.maxSessions ∧
    (∀ code, CycleError.maxSessions ≠ CycleError.couldNotLogin code) ∧
    fetch_loop { result := none, err := some 503 } (r :: rest) =
      some (Except.error CycleError.maxSessions, 1) := by
  refine ⟨rfl, fun code h2 => CycleError.noConfusion h2, ?_⟩
  simp [fetch_loop, h, login]

/-- Witness of login_max_sessions_aborts at a concrete 401 response. -/
theorem login_max_sessions_aborts_witness :
    ({ err := some 401, result := none } : FetchResponse).err = some 401 ∧
    fetch_loop { result := none, err := some 503 }
        [{ err := some 401, result := none }] =
      some (Except.error CycleError.maxSessions, 1) :=
  ⟨rfl, (login_max_sessions_aborts { err := some 401, result := none } [] rfl).2.2⟩

/-- Claim C8: a fetch response without a result key, with a number of
device-serial keys different from one, or with a null single-device
payload makes the cycle fail with the unexpected-response anomaly and
enqueues no sample. -/
theorem parse_unexpected_response (response : FetchResponse) (queue : List MetricSample)
    (now : ℚ)
    (h : response.result = none ∨
         (∃ entries, response.result = some entries ∧ entries.length ≠ 1) ∨
         (∃ serial, response.result = some [(serial, none)])) :
    read_data_response response queue now = Except.error CycleError.unexpectedResponse := by
  unfold read_data_response parse_device_data
  rcases h with h | ⟨entries, he, hl⟩ | ⟨serial, he⟩
  · rw [h]
  · rw [he]
    simp [hl]
  · rw [he]
    simp

/-- Witness of parse_unexpected_response at a response with no result. -/
theorem parse_unexpected_response_witness :
    ({ err := none, result := none } : FetchResponse).result = none ∧
    read_data_response { err := none, result := none } [] 0 =
      Except.error CycleError.unexpectedResponse :=
  ⟨rfl, parse_unexpected_response { err := none, result := none } [] 0 (Or.inl rfl)⟩

/-- Claim C9: saving a token and reading it back returns that token,
and the read is total: an unreadable file or an object without the sid
key gives the absent value instead of an error. -/
theorem sid_persister_roundtrip (x : String) (fs : FileState)
    (obj : List (String × String)) (hobj : lookup "sid" obj = none) :
    sid_get (sid_save x fs) = some x ∧ sid_get none = none ∧
    sid_get (some obj) = none :=
  ⟨rfl, rfl, hobj⟩

/-- Witness of sid_persister_roundtrip at a concrete token and a file
object without the sid key. -/
theorem sid_persister_roundtrip_witness :
    lookup "sid" [("other", "y")] = none ∧
    sid_get (sid_save "abc" none) = some "abc" ∧
    sid_get (some [("other", "y")]) = none := by
  refine ⟨by decide, ?_, ?_⟩
  · exact (sid_persister_roundtrip "abc" none [("other", "y")] (by decide)).1
  · exact (sid_persister_roundtrip "abc" none [("other", "y")] (by decide)).2.2

/-- Claim C10: no entry of a produced values mapping is the null value:
the online entry is a boolean and every other entry is a numeric value
obtained from the reduction of scaled readings. -/
theorem sample_values_well_typed (data : DevicePayload) (n : String) (v : SVal)
    (h : (n, v) ∈ sample_values data) :
    v ≠ SVal.null ∧ (n = "online" → ∃ b, v = SVal.bool b) ∧
      (n ≠ "online" → ∃ q : ℚ, v = SVal.num q) := by
  unfold sample_values add_online at h
  rcases List.mem_append.mp h with hb | ho
  · obtain ⟨p, hp, hname, q, hq⟩ := build_fields_mem hb
    have hno : n ≠ "online" := fun he => online_not_field_name p hp (hname.trans he)
    exact ⟨by simp [hq], fun he => absurd he hno, fun _ => ⟨q, hq⟩⟩
  · have he := List.mem_singleton.mp ho
    obtain ⟨h1, h2⟩ := Prod.mk.injEq .. ▸ he
    subst h1
    subst h2
    exact ⟨by simp, fun _ => ⟨_, rfl⟩, fun hne => absurd rfl hne⟩

/-- Witness of sample_values_well_typed at the empty payload, whose
sample holds only the online entry. -/
theorem sample_values_well_typed_witness :
    (("online", SVal.bool false) ∈ sample_values []) ∧ SVal.bool false ≠ SVal.null :=
  ⟨by decide, (sample_values_well_typed [] "online" (SVal.bool false) (by decide)).1⟩

end SMA
